import Mathlib

/-!
Shallow embedding of `src/psql.py`, a Sublime Text plugin that drives the
PostgreSQL command-line client.  The embedded parts are the layered settings
resolver `PsqlSettings`, the dispatch logic of `PsqlCommand.run` and
`PsqlCommand.__run_with_password`, the completion supervisor
`__PostgresQueryHandleExecution`, and the worker `__PostgresQueryExecute`.

Modelling conventions: Python dicts are insertion-ordered association lists,
Python values are the inductive `Value` together with Python truthiness,
Python exceptions are explicit `Except` results, mutation of `self` is state
passing, and calls into the operating system (file existence, process spawn,
byte encoding) are oracles supplied as explicit arguments.
-/

set_option autoImplicit false

namespace PsqlModel

/-- Python exceptions raised on the modelled code paths. -/
inductive PErr where
  | valueError (msg : String)
  | keyError (name : String)
  | typeError (msg : String)
  | attributeError (name : String)
deriving DecidableEq

/-- Python runtime values as they occur in the plugin settings dictionaries. -/
inductive Value where
  | none
  | bool (b : Bool)
  | int (n : Int)
  | str (s : String)
  | list (elems : List Value)

/-- Python truthiness of a `Value`, as tested by `if value:`. -/
def truthy : Value → Bool
  | Value.none => false
  | Value.bool b => b
  | Value.int n => n != 0
  | Value.str s => s != ""
  | Value.list l => !l.isEmpty

/-- Lookup in an insertion-ordered association list (Python `d[k]`, `d.get(k)`). -/
def alookup {κ α : Type} [DecidableEq κ] : List (κ × α) → κ → Option α
  | [], _ => Option.none
  | (k', v) :: rest, k => if k' = k then Option.some v else alookup rest k

/-- Python `d[k] = v`: replace the binding in place when the key exists,
otherwise append it. -/
def ainsert {κ α : Type} [DecidableEq κ] : List (κ × α) → κ → α → List (κ × α)
  | [], k, v => [(k, v)]
  | (k', v') :: rest, k, v =>
    if k' = k then (k, v) :: rest else (k', v') :: ainsert rest k v

/-- Python `del d[k]` on a present key: drop its (unique) binding. -/
def aerase {κ α : Type} [DecidableEq κ] : List (κ × α) → κ → List (κ × α)
  | [], _ => []
  | (k', v') :: rest, k => if k' = k then rest else (k', v') :: aerase rest k

theorem alookup_ainsert_self {κ α : Type} [DecidableEq κ]
    (l : List (κ × α)) (k : κ) (v : α) : alookup (ainsert l k v) k = Option.some v := by
  induction l with
  | nil => simp [ainsert, alookup]
  | cons hd tl ih =>
    obtain ⟨k', v'⟩ := hd
    by_cases h : k' = k
    · simp [ainsert, h, alookup]
    · simp [ainsert, h, alookup, ih]

theorem alookup_ainsert_ne {κ α : Type} [DecidableEq κ]
    (l : List (κ × α)) (k k' : κ) (v : α) (h : k ≠ k') :
    alookup (ainsert l k v) k' = alookup l k' := by
  induction l with
  | nil => simp [ainsert, alookup, h]
  | cons hd tl ih =>
    obtain ⟨k'', v''⟩ := hd
    by_cases hk : k'' = k
    · subst hk
      simp [ainsert, alookup, h]
    · simp only [ainsert, hk, if_false, alookup]
      by_cases hk' : k'' = k'
      · simp [hk']
      · simp [hk', ih]

theorem keys_ainsert_of_mem {κ α : Type} [DecidableEq κ]
    (l : List (κ × α)) (k : κ) (v w : α) (h : alookup l k = Option.some w) :
    (ainsert l k v).map Prod.fst = l.map Prod.fst := by
  induction l with
  | nil => simp [alookup] at h
  | cons hd tl ih =>
    obtain ⟨k', v'⟩ := hd
    by_cases hk : k' = k
    · subst hk
      simp [ainsert]
    · simp only [alookup, hk, if_false] at h
      simp [ainsert, hk, ih h]

/-- A Python dictionary holding settings values. -/
abbrev Dict := List (String × Value)

/-- `PsqlSettings.__postgres_variables`: the fixed vocabulary of recognized
setting names, each paired with the external environment-variable name it
exports to (`""` marks a behavior-only flag with no external mapping). -/
def postgres_variables : List (String × String) :=
  [("host", "PGHOST"), ("hostaddr", "PGHOSTADDR"), ("port", "PGPORT"),
   ("database", "PGDATABASE"), ("user", "PGUSER"), ("password", "PGPASSWORD"),
   ("passfile", "PGPASSFILE"), ("service", "PGSERVICE"), ("servicefile", "PGSERVICEFILE"),
   ("kerberos_realm", "PGREALM"), ("options", "PGOPTIONS"), ("application_name", "PGAPPNAME"),
   ("sslmode", "PGSSLMODE"), ("requiressl", "PGREQUIRESSL"), ("sslcompression", "PGSSLCOMPRESSION"),
   ("sslcert", "PGSSLCERT"), ("sslkey", "PGSSLKEY"), ("sslrootcert", "PGSSLROOTCERT"),
   ("sslcrl", "PGSSLCRL"), ("requirepeer", "PGREQUIREPEER"), ("krbsrvname", "PGKRBSRVNAME"),
   ("gsslib", "PGGSSLIB"), ("connect_timeout", "PGCONNECT_TIMEOUT"),
   ("client_encoding", "PGCLIENTENCODING"), ("datestyle", "PGDATESTYLE"),
   ("timezone", "PGTZ"), ("geqo", "PGGEQO"), ("sysconfdir", "PGSYSCONFDIR"),
   ("localedir", "PGLOCALEDIR"), ("psql_path", ""), ("prompt_for_password", ""),
   ("warn_on_empty_password", ""), ("output_to_newfile", ""), ("files", "")]

/-- `PsqlSettings.__try_validate_name`: membership in the fixed vocabulary. -/
def try_validate_name (name : String) : Bool :=
  (postgres_variables.map Prod.fst).contains name

/-- The mutable per-window state of a `PsqlSettings` instance: the working
layer `self.__defaults` and the session-override layer `self.__userspecified`. -/
structure SettingsState where
  defaults : Dict
  userspecified : Dict

/-- `PsqlSettings.__get`: read from the working layer, lazily backfilling a
truthy persisted default (`default_<name>` in the backend); a falsy or absent
persisted default leaves the working layer untouched, so the final dictionary
read raises `KeyError`. -/
def getRaw (s : SettingsState) (b : Dict) (name : String) :
    Except PErr (Value × SettingsState) :=
  match alookup s.defaults name with
  | Option.some v => Except.ok (v, s)
  | Option.none =>
    match alookup b ("default_" ++ name) with
    | Option.some v =>
      if truthy v then
        Except.ok (v, { s with defaults := ainsert s.defaults name v })
      else Except.error (PErr.keyError name)
    | Option.none => Except.error (PErr.keyError name)

/-- `PsqlSettings.__contains__` after name validation: present in the working
layer, or resolvable from a truthy persisted default. -/
def containsRaw (s : SettingsState) (b : Dict) (name : String) : Bool :=
  match alookup s.defaults name with
  | Option.some _ => true
  | Option.none =>
    match alookup b ("default_" ++ name) with
    | Option.some v => truthy v
    | Option.none => false

/-- Pure (mutation-free) view of `__get`: the value `__get` would return,
`Option.none` when it would raise `KeyError`. -/
def resolve (s : SettingsState) (b : Dict) (name : String) : Option Value :=
  match alookup s.defaults name with
  | Option.some v => Option.some v
  | Option.none =>
    match alookup b ("default_" ++ name) with
    | Option.some v => if truthy v then Option.some v else Option.none
    | Option.none => Option.none

/-- The guarded read `name in settings and settings[name]` used throughout the
command: `Option.some` exactly when `__contains__` is true, in which case it
carries the `__get` result (value and possibly backfilled state). -/
def getItemT (s : SettingsState) (b : Dict) (name : String) :
    Option (Value × SettingsState) :=
  (getRaw s b name).toOption

theorem getRaw_ok_resolve (s : SettingsState) (b : Dict) (name : String)
    (v : Value) (s' : SettingsState) (h : getRaw s b name = Except.ok (v, s')) :
    resolve s b name = Option.some v := by
  unfold getRaw at h
  unfold resolve
  cases hd : alookup s.defaults name with
  | some w => simp [hd] at h ⊢; exact h.1
  | none =>
    cases hb : alookup b ("default_" ++ name) with
    | some w =>
      simp only [hd, hb] at h ⊢
      by_cases ht : truthy w
      · simp [ht] at h ⊢; exact h.1
      · simp [ht] at h
    | none => simp [hd, hb] at h

theorem resolve_stable (s : SettingsState) (b : Dict) (name : String)
    (v : Value) (s' : SettingsState) (h : getRaw s b name = Except.ok (v, s')) :
    ∀ m, resolve s' b m = resolve s b m := by
  intro m
  unfold getRaw at h
  cases hd : alookup s.defaults name with
  | some w =>
    simp [hd] at h
    rw [← h.2]
  | none =>
    cases hb : alookup b ("default_" ++ name) with
    | some w =>
      simp only [hd, hb] at h
      by_cases ht : truthy w
      · simp [ht] at h
        obtain ⟨hv, hs⟩ := h
        subst hv
        rw [← hs]
        by_cases hm : name = m
        · subst hm
          unfold resolve
          simp [alookup_ainsert_self, hd, hb, ht]
        · unfold resolve
          simp only
          rw [alookup_ainsert_ne _ _ _ _ hm]
      · simp [ht] at h
    | none => simp [hd, hb] at h

theorem getRaw_idem (s : SettingsState) (b : Dict) (name : String)
    (v : Value) (s' : SettingsState) (h : getRaw s b name = Except.ok (v, s')) :
    getRaw s' b name = Except.ok (v, s') := by
  unfold getRaw at h ⊢
  cases hd : alookup s.defaults name with
  | some w =>
    simp [hd] at h
    obtain ⟨hv, hs⟩ := h
    subst hv; subst hs
    simp [hd]
  | none =>
    cases hb : alookup b ("default_" ++ name) with
    | some w =>
      simp only [hd, hb] at h
      by_cases ht : truthy w
      · simp [ht] at h
        obtain ⟨hv, hs⟩ := h
        subst hv
        rw [← hs]
        simp [alookup_ainsert_self]
      · simp [ht] at h
    | none => simp [hd, hb] at h

theorem containsRaw_eq_resolve_isSome (s : SettingsState) (b : Dict) (name : String) :
    containsRaw s b name = (resolve s b name).isSome := by
  unfold containsRaw resolve
  cases hd : alookup s.defaults name with
  | some w => simp
  | none =>
    cases hb : alookup b ("default_" ++ name) with
    | some w => by_cases ht : truthy w <;> simp [ht]
    | none => simp

theorem getItemT_none_iff (s : SettingsState) (b : Dict) (name : String) :
    getItemT s b name = Option.none ↔ resolve s b name = Option.none := by
  unfold getItemT getRaw
  unfold resolve
  cases hd : alookup s.defaults name with
  | some w => simp [Except.toOption]
  | none =>
    cases hb : alookup b ("default_" ++ name) with
    | some w => by_cases ht : truthy w <;> simp [ht, Except.toOption]
    | none => simp [Except.toOption]

theorem getItemT_some (s : SettingsState) (b : Dict) (name : String)
    (v : Value) (s' : SettingsState) :
    getItemT s b name = Option.some (v, s') ↔ getRaw s b name = Except.ok (v, s') := by
  unfold getItemT
  cases h : getRaw s b name with
  | ok p => simp [Except.toOption]
  | error e => simp [Except.toOption]

/-- The `ValueError` raised by `PsqlSettings.__validate_name`. -/
def validationError (name : String) : PErr :=
  PErr.valueError ("Argument " ++ name ++ " not recognized.")

/-- `PsqlSettings.__getitem__`: validate the name, then `__get`. -/
def getItem (s : SettingsState) (b : Dict) (name : String) :
    Except PErr (Value × SettingsState) :=
  if try_validate_name name then getRaw s b name
  else Except.error (validationError name)

/-- `PsqlSettings.__setitem__`: validate the name, then write the working
layer only (never the persisted backend). -/
def setItem (s : SettingsState) (name : String) (v : Value) :
    Except PErr SettingsState :=
  if try_validate_name name then
    Except.ok { s with defaults := ainsert s.defaults name v }
  else Except.error (validationError name)

/-- `PsqlSettings.__delitem__`: validate the name, then `del` on the working
layer, which raises `KeyError` when the binding is absent. -/
def delItem (s : SettingsState) (name : String) : Except PErr SettingsState :=
  if try_validate_name name then
    match alookup s.defaults name with
    | Option.some _ => Except.ok { s with defaults := aerase s.defaults name }
    | Option.none => Except.error (PErr.keyError name)
  else Except.error (validationError name)

/-- `PsqlSettings.__contains__`: validate the name, then test the working
layer or a truthy persisted default. -/
def containsItem (s : SettingsState) (b : Dict) (name : String) : Except PErr Bool :=
  if try_validate_name name then Except.ok (containsRaw s b name)
  else Except.error (validationError name)

/-- `PsqlSettings.__reload`: the working layer becomes a copy of the
session-override layer. -/
def reload (s : SettingsState) : SettingsState :=
  { s with defaults := s.userspecified }

/-- `PsqlSettings.clear`: drop the overrides, then `__reload`. -/
def clear (s : SettingsState) : SettingsState :=
  reload { s with userspecified := [] }

/-- `PsqlSettings.has_user_specified`. -/
def has_user_specified (s : SettingsState) : Bool :=
  s.userspecified.length > 0

/-- `PsqlSettings.set_user_specified`: validate, then write the override
layer; the working layer is not touched and no reload happens. -/
def set_user_specified (s : SettingsState) (name : String) (v : Value) :
    Except PErr SettingsState :=
  if try_validate_name name then
    Except.ok { s with userspecified := ainsert s.userspecified name v }
  else Except.error (validationError name)

/-- `PsqlSettings.unset_user_specified`: validate, then drop the override
binding when present; again the working layer is not touched. -/
def unset_user_specified (s : SettingsState) (name : String) :
    Except PErr SettingsState :=
  if try_validate_name name then
    Except.ok { s with userspecified :=
      if (alookup s.userspecified name).isSome then aerase s.userspecified name
      else s.userspecified }
  else Except.error (validationError name)

/-- Claim C4: for every name in the fixed vocabulary, `set` followed by `get`
returns exactly the value that was set; for every name outside the vocabulary,
each of `get`, `set`, `delete` and `contains` raises the validation
`ValueError` synchronously, producing no updated state, so the store is
unchanged. -/
theorem vocabulary_roundtrip_and_validation (name : String) (s : SettingsState)
    (b : Dict) (v : Value) :
    (try_validate_name name = true →
      ∃ s', setItem s name v = Except.ok s' ∧
        getItem s' b name = Except.ok (v, s')) ∧
    (try_validate_name name = false →
      setItem s name v = Except.error (validationError name) ∧
      getItem s b name = Except.error (validationError name) ∧
      delItem s name = Except.error (validationError name) ∧
      containsItem s b name = Except.error (validationError name)) := by
  constructor
  · intro h
    refine ⟨{ s with defaults := ainsert s.defaults name v }, ?_, ?_⟩
    · simp [setItem, h]
    · simp [getItem, h, getRaw, alookup_ainsert_self]
  · intro h
    simp [setItem, getItem, delItem, containsItem, h]

/-- Concrete instantiation of the C4 theorem: `host` round-trips through
`set`/`get`, and the unknown name `bogus` is rejected by every operation. -/
theorem vocabulary_roundtrip_and_validation_witness :
    (∃ s', setItem ⟨[], []⟩ "host" (Value.str "h") = Except.ok s' ∧
      getItem s' [] "host" = Except.ok (Value.str "h", s')) ∧
    (setItem ⟨[], []⟩ "bogus" (Value.str "h") = Except.error (validationError "bogus") ∧
      getItem ⟨[], []⟩ [] "bogus" = Except.error (validationError "bogus") ∧
      delItem ⟨[], []⟩ "bogus" = Except.error (validationError "bogus") ∧
      containsItem ⟨[], []⟩ [] "bogus" = Except.error (validationError "bogus")) :=
  ⟨(vocabulary_roundtrip_and_validation "host" ⟨[], []⟩ [] (Value.str "h")).1 rfl,
   (vocabulary_roundtrip_and_validation "bogus" ⟨[], []⟩ [] (Value.str "h")).2 rfl⟩

/-- Whether the persisted backend holds a truthy default for `name`, as tested
by `__get` and `__contains__` (`value = settings.get('default_'+name)` then
`if value:`). -/
def backendDefaultTruthy (b : Dict) (name : String) : Bool :=
  match alookup b ("default_" ++ name) with
  | Option.some v => truthy v
  | Option.none => false

/-- Claim C10: for a vocabulary name absent from the working layer whose
persisted default is absent or falsy, `get` raises `KeyError` rather than
returning a default, and `contains` returns `false`; a falsy persisted default
behaves exactly like a missing one. -/
theorem get_keyerror_on_falsy_default (s : SettingsState) (b : Dict) (name : String)
    (hv : try_validate_name name = true)
    (hd : alookup s.defaults name = Option.none)
    (hb : backendDefaultTruthy b name = false) :
    getItem s b name = Except.error (PErr.keyError name) ∧
    containsItem s b name = Except.ok false := by
  unfold backendDefaultTruthy at hb
  constructor
  · simp only [getItem, hv, if_true]
    unfold getRaw
    rw [hd]
    cases hbb : alookup b ("default_" ++ name) with
    | some w => rw [hbb] at hb; simp at hb; simp [hb]
    | none => simp
  · simp only [containsItem, hv, if_true]
    unfold containsRaw
    rw [hd]
    cases hbb : alookup b ("default_" ++ name) with
    | some w => rw [hbb] at hb; simp at hb; simp [hb]
    | none => simp

/-- Concrete instantiation of the C10 theorem at a present but falsy persisted
default (`default_host = ""`). -/
theorem get_keyerror_on_falsy_default_witness :
    getItem ⟨[], []⟩ [("default_host", Value.str "")] "host" =
      Except.error (PErr.keyError "host") ∧
    containsItem ⟨[], []⟩ [("default_host", Value.str "")] "host" =
      Except.ok false :=
  get_keyerror_on_falsy_default ⟨[], []⟩ [("default_host", Value.str "")] "host"
    rfl rfl rfl

theorem string_append_left_cancel (p n m : String) (h : p ++ n = p ++ m) : n = m := by
  have hd : (p ++ n).data = (p ++ m).data := by rw [h]
  rw [String.data_append, String.data_append] at hd
  exact String.ext (List.append_cancel_left hd)

/-- The write loop of `PsqlSettings.save`: one backend
`set('default_' + name, value)` per session-override entry, in order. -/
def writeAll (b : Dict) : Dict → Dict
  | [] => b
  | (n, v) :: rest => writeAll (ainsert b ("default_" ++ n) v) rest

/-- Result of one `PsqlSettings.save` call: the instance state afterwards, the
backend afterwards, and whether `save_settings` was invoked. -/
structure SaveResult where
  state : SettingsState
  backend : Dict
  persisted : Bool

/-- `PsqlSettings.save`: write every session-override entry to the backend
under `default_<name>`; when at least one entry existed (`updates`), persist
the backend and `clear()` (drop the overrides and reset the working layer). -/
def save (s : SettingsState) (b : Dict) : SaveResult :=
  let b' := writeAll b s.userspecified
  if s.userspecified.isEmpty then ⟨s, b', false⟩
  else ⟨clear s, b', true⟩

theorem writeAll_lookup_other (l : Dict) : ∀ (b : Dict) (k : String),
    (∀ n ∈ l.map Prod.fst, k ≠ "default_" ++ n) →
    alookup (writeAll b l) k = alookup b k := by
  induction l with
  | nil => intro b k _; rfl
  | cons hd tl ih =>
    intro b k hk
    obtain ⟨n, v⟩ := hd
    unfold writeAll
    rw [ih _ _ (fun m hm => hk m (List.mem_cons_of_mem _ hm))]
    exact alookup_ainsert_ne _ _ _ _
      (Ne.symm (hk n (List.mem_cons_self _ _)))

theorem writeAll_lookup_mem (l : Dict) : ∀ (b : Dict) (n : String) (v : Value),
    (l.map Prod.fst).Nodup → (n, v) ∈ l →
    alookup (writeAll b l) ("default_" ++ n) = Option.some v := by
  induction l with
  | nil => intro b n v _ hm; cases hm
  | cons hd tl ih =>
    intro b n v hnd hm
    obtain ⟨n', v'⟩ := hd
    rcases List.mem_cons.mp hm with heq | htl
    · obtain ⟨h1, h2⟩ := Prod.mk.injEq .. ▸ heq
      subst h1; subst h2
      unfold writeAll
      rw [writeAll_lookup_other tl _ _ ?_]
      · exact alookup_ainsert_self _ _ _
      · intro m hmtl hcontra
        have hnm : n = m := string_append_left_cancel _ _ _ hcontra
        have hmap : (n :: tl.map Prod.fst).Nodup := by
          rw [List.map_cons] at hnd; exact hnd
        exact (List.nodup_cons.mp hmap).1 (hnm ▸ hmtl)
    · have hmap : (n' :: tl.map Prod.fst).Nodup := by
        rw [List.map_cons] at hnd; exact hnd
      have hnd' : (tl.map Prod.fst).Nodup := (List.nodup_cons.mp hmap).2
      unfold writeAll
      exact ih _ _ _ hnd' htl

/-- Claim C8 (amended): `save` writes exactly the session-override entries to
the persisted backend, each under `default_<name>`, and touches no other key;
when at least one override exists it then clears the override layer and resets
the working layer; `has_user_specified` is false afterwards; and a subsequent
`get` for an overridden name returns the just-persisted value provided that
value is truthy (a falsy persisted value is not resolvable as a default). -/
theorem save_flushes_overrides (s : SettingsState) (b : Dict)
    (hnd : (s.userspecified.map Prod.fst).Nodup)
    (hvalid : ∀ n ∈ s.userspecified.map Prod.fst, try_validate_name n = true) :
    (∀ k, (∀ n ∈ s.userspecified.map Prod.fst, k ≠ "default_" ++ n) →
      alookup (save s b).backend k = alookup b k) ∧
    (∀ n v, (n, v) ∈ s.userspecified →
      alookup (save s b).backend ("default_" ++ n) = Option.some v) ∧
    has_user_specified (save s b).state = false ∧
    (s.userspecified ≠ [] →
      (save s b).state = ⟨[], []⟩ ∧ (save s b).persisted = true) ∧
    (∀ n v, (n, v) ∈ s.userspecified → truthy v = true →
      getItem (save s b).state (save s b).backend n =
        Except.ok (v, ⟨[(n, v)], []⟩)) := by
  have hbackend : (save s b).backend = writeAll b s.userspecified := by
    unfold save
    by_cases he : s.userspecified.isEmpty <;> simp [he]
  have hstate : s.userspecified ≠ [] → (save s b).state = ⟨[], []⟩ := by
    intro hne
    unfold save
    simp [List.isEmpty_iff, hne, clear, reload]
  refine ⟨?_, ?_, ?_, ?_, ?_⟩
  · intro k hk
    rw [hbackend]
    exact writeAll_lookup_other _ _ _ hk
  · intro n v hm
    rw [hbackend]
    exact writeAll_lookup_mem _ _ _ _ hnd hm
  · unfold save
    by_cases he : s.userspecified.isEmpty
    · have : s.userspecified = [] := List.isEmpty_iff.mp he
      simp [he, has_user_specified, this]
    · simp [he, has_user_specified, clear, reload]
  · intro hne
    refine ⟨hstate hne, ?_⟩
    unfold save
    simp [List.isEmpty_iff, hne]
  · intro n v hm ht
    have hne : s.userspecified ≠ [] := by
      intro hnil; rw [hnil] at hm; cases hm
    rw [hstate hne, hbackend]
    have hv : try_validate_name n = true :=
      hvalid n (List.mem_map_of_mem Prod.fst hm)
    have hb : alookup (writeAll b s.userspecified) ("default_" ++ n) =
        Option.some v := writeAll_lookup_mem _ _ _ _ hnd hm
    simp [getItem, hv, getRaw, hb, ht, ainsert, alookup]

/-- Concrete instantiation of the C8 theorem: overrides
`host := "h"`, `port := "5432"` are persisted, cleared and re-readable. -/
theorem save_flushes_overrides_witness :
    (∀ k, (∀ n ∈ ([("host", Value.str "h"), ("port", Value.str "5432")] :
        Dict).map Prod.fst, k ≠ "default_" ++ n) →
      alookup (save ⟨[], [("host", Value.str "h"), ("port", Value.str "5432")]⟩
        [("other", Value.int 1)]).backend k = alookup [("other", Value.int 1)] k) ∧
    (∀ n v, (n, v) ∈ ([("host", Value.str "h"), ("port", Value.str "5432")] : Dict) →
      alookup (save ⟨[], [("host", Value.str "h"), ("port", Value.str "5432")]⟩
        [("other", Value.int 1)]).backend ("default_" ++ n) = Option.some v) ∧
    has_user_specified (save ⟨[], [("host", Value.str "h"), ("port", Value.str "5432")]⟩
      [("other", Value.int 1)]).state = false ∧
    (([("host", Value.str "h"), ("port", Value.str "5432")] : Dict) ≠ [] →
      (save ⟨[], [("host", Value.str "h"), ("port", Value.str "5432")]⟩
        [("other", Value.int 1)]).state = ⟨[], []⟩ ∧
      (save ⟨[], [("host", Value.str "h"), ("port", Value.str "5432")]⟩
        [("other", Value.int 1)]).persisted = true) ∧
    (∀ n v, (n, v) ∈ ([("host", Value.str "h"), ("port", Value.str "5432")] : Dict) →
      truthy v = true →
      getItem (save ⟨[], [("host", Value.str "h"), ("port", Value.str "5432")]⟩
          [("other", Value.int 1)]).state
        (save ⟨[], [("host", Value.str "h"), ("port", Value.str "5432")]⟩
          [("other", Value.int 1)]).backend n =
        Except.ok (v, ⟨[(n, v)], []⟩)) :=
  save_flushes_overrides ⟨[], [("host", Value.str "h"), ("port", Value.str "5432")]⟩
    [("other", Value.int 1)] (by simp) (by intro n hn; fin_cases hn <;> rfl)

/-- Counterexample to claim C8 as stated: persisting the falsy override
`host := ""` succeeds, but the subsequent `get` for that name raises
`KeyError` instead of returning the just-persisted value, because a falsy
persisted default is never resolvable. -/
theorem save_falsy_value_not_readable :
    (save ⟨[], [("host", Value.str "")]⟩ []).backend =
      [("default_host", Value.str "")] ∧
    (save ⟨[], [("host", Value.str "")]⟩ []).state = ⟨[], []⟩ ∧
    getItem (save ⟨[], [("host", Value.str "")]⟩ []).state
      (save ⟨[], [("host", Value.str "")]⟩ []).backend "host" =
      Except.error (PErr.keyError "host") :=
  ⟨rfl, rfl, rfl⟩

/-- `MutableMapping.update` applied to explicit keyword arguments: one
`__setitem__` per pair; a validation failure aborts mid-iteration, keeping the
writes already made and propagating the error. -/
def updateItems (s : SettingsState) : Dict → SettingsState × Option PErr
  | [] => (s, Option.none)
  | (n, v) :: rest =>
    match setItem s n v with
    | Except.ok s' => updateItems s' rest
    | Except.error e => (s, Option.some e)

theorem updateItems_userspecified (l : Dict) :
    ∀ s : SettingsState, (updateItems s l).1.userspecified = s.userspecified := by
  induction l with
  | nil => intro s; rfl
  | cons hd tl ih =>
    intro s
    obtain ⟨n, v⟩ := hd
    unfold updateItems
    cases h : setItem s n v with
    | ok s' =>
      rw [ih s']
      unfold setItem at h
      by_cases hv : try_validate_name n
      · simp [hv] at h
        rw [← h]
      · simp [hv] at h
    | error e => rfl

/-- One `PsqlSettings(window=w, **kwargs)` construction against the class
registry `PsqlSettings.__windows`, for a non-`None` window with id `wid`;
`kwargs` are the keyword arguments other than `window` (`__init__` pops
`window` before `update`).  `__new__` returns the already-registered instance
when the window id is cached, without calling `MutableMapping.__new__` again;
for a fresh instance `object.__new__` rejects excess keyword arguments with
`TypeError`.  `__init__` then runs on whatever instance `__new__` returned,
resetting both layers to empty before applying `kwargs` via `update`.
The result is the registry afterwards, the constructed instance
(`Option.none` when an exception escaped), and the escaped exception. -/
def psqlConstruct (reg : List (Nat × SettingsState)) (wid : Nat) (kwargs : Dict) :
    List (Nat × SettingsState) × Option SettingsState × Option PErr :=
  match alookup reg wid with
  | Option.some _ =>
    let r := updateItems { defaults := [], userspecified := [] } kwargs
    (ainsert reg wid r.1, if r.2.isSome then Option.none else Option.some r.1, r.2)
  | Option.none =>
    if kwargs.isEmpty then
      let r := updateItems { defaults := [], userspecified := [] } kwargs
      (ainsert reg wid r.1, Option.some r.1, Option.none)
    else
      (reg, Option.none,
        Option.some (PErr.typeError "object.__new__ takes exactly one argument"))

/-- Claim C9: constructing a `PsqlSettings` for a window id already in the
class registry hands back the cached instance (same registry slot, no new
entry), but `__init__` runs again on it, resetting the working layer and the
override layer to empty plus the new kwargs — every value previously stored in
the prior state `sPrev` is discarded. -/
theorem reconstruct_resets_cached_instance (reg : List (Nat × SettingsState))
    (wid : Nat) (kwargs : Dict) (sPrev : SettingsState)
    (hc : alookup reg wid = Option.some sPrev)
    (hok : (updateItems ⟨[], []⟩ kwargs).2 = Option.none) :
    psqlConstruct reg wid kwargs =
      (ainsert reg wid (updateItems ⟨[], []⟩ kwargs).1,
        Option.some (updateItems ⟨[], []⟩ kwargs).1, Option.none) ∧
    (updateItems ⟨[], []⟩ kwargs).1.userspecified = [] ∧
    alookup (ainsert reg wid (updateItems ⟨[], []⟩ kwargs).1) wid =
      Option.some (updateItems ⟨[], []⟩ kwargs).1 ∧
    (ainsert reg wid (updateItems ⟨[], []⟩ kwargs).1).map Prod.fst =
      reg.map Prod.fst := by
  refine ⟨?_, ?_, ?_, ?_⟩
  · unfold psqlConstruct
    rw [hc]
    simp [hok]
  · rw [updateItems_userspecified]
  · exact alookup_ainsert_self _ _ _
  · exact keys_ainsert_of_mem _ _ _ _ hc

/-- Concrete instantiation of the C9 theorem: window 5 already holds a
populated instance; reconstruction with `host := "new"` discards both layers
and leaves only the new kwarg. -/
theorem reconstruct_resets_cached_instance_witness :
    psqlConstruct [(5, ⟨[("host", Value.str "old")], [("port", Value.int 5)]⟩)]
        5 [("host", Value.str "new")] =
      ([(5, ⟨[("host", Value.str "new")], []⟩)],
        Option.some ⟨[("host", Value.str "new")], []⟩, Option.none) ∧
    (⟨[("host", Value.str "new")], []⟩ : SettingsState).userspecified = [] ∧
    alookup [(5, (⟨[("host", Value.str "new")], []⟩ : SettingsState))] 5 =
      Option.some ⟨[("host", Value.str "new")], []⟩ ∧
    ([(5, (⟨[("host", Value.str "new")], []⟩ : SettingsState))].map Prod.fst) =
      ([(5, (⟨[("host", Value.str "old")], [("port", Value.int 5)]⟩ :
        SettingsState))].map Prod.fst) :=
  reconstruct_resets_cached_instance
    [(5, ⟨[("host", Value.str "old")], [("port", Value.int 5)]⟩)]
    5 [("host", Value.str "new")]
    ⟨[("host", Value.str "old")], [("port", Value.int 5)]⟩ rfl rfl

/-- Counterexample to claim C1 as stated: with a persisted default
(`default_host = "persisted"`), a session override set through
`set_user_specified`, and an explicit value set through `__setitem__`,
deleting the explicit value makes `get` return the persisted default — not the
session override — because `set_user_specified` performs no reload of the
working layer. -/
theorem override_invisible_after_delete :
    set_user_specified ⟨[], []⟩ "host" (Value.str "override") =
      Except.ok ⟨[], [("host", Value.str "override")]⟩ ∧
    setItem ⟨[], [("host", Value.str "override")]⟩ "host" (Value.str "explicit") =
      Except.ok ⟨[("host", Value.str "explicit")], [("host", Value.str "override")]⟩ ∧
    delItem ⟨[("host", Value.str "explicit")], [("host", Value.str "override")]⟩
        "host" =
      Except.ok ⟨[], [("host", Value.str "override")]⟩ ∧
    getItem ⟨[], [("host", Value.str "override")]⟩
        [("default_host", Value.str "persisted")] "host" =
      Except.ok (Value.str "persisted",
        ⟨[("host", Value.str "persisted")], [("host", Value.str "override")]⟩) ∧
    Value.str "persisted" ≠ Value.str "override" := by
  refine ⟨rfl, rfl, rfl, rfl, ?_⟩
  intro h
  exact absurd (Value.str.inj h) (by decide)

/-- Claim C1 (amended): with a truthy persisted default, a session override
set via `set_user_specified`, and an explicit per-invocation value all set for
the same name, `get` returns the explicit value; after deleting the explicit
value, `get` returns the persisted default (backfilled into the working
layer), because `set_user_specified`/`unset_user_specified` do not reset the
working layer; the override becomes visible only after an explicit reload
(as performed by `clear()` or the settings-change broadcast), after which
`get` returns the override; and after `unset_user_specified` plus a reload,
`get` falls back to the persisted default. -/
theorem precedence_without_reload (b : Dict) (n : String) (vD vO vE : Value)
    (hn : try_validate_name n = true)
    (hb : alookup b ("default_" ++ n) = Option.some vD)
    (ht : truthy vD = true) :
    set_user_specified ⟨[], []⟩ n vO = Except.ok ⟨[], [(n, vO)]⟩ ∧
    setItem ⟨[], [(n, vO)]⟩ n vE = Except.ok ⟨[(n, vE)], [(n, vO)]⟩ ∧
    getItem ⟨[(n, vE)], [(n, vO)]⟩ b n = Except.ok (vE, ⟨[(n, vE)], [(n, vO)]⟩) ∧
    delItem ⟨[(n, vE)], [(n, vO)]⟩ n = Except.ok ⟨[], [(n, vO)]⟩ ∧
    getItem ⟨[], [(n, vO)]⟩ b n =
      Except.ok (vD, ⟨[(n, vD)], [(n, vO)]⟩) ∧
    getItem (reload ⟨[(n, vD)], [(n, vO)]⟩) b n =
      Except.ok (vO, ⟨[(n, vO)], [(n, vO)]⟩) ∧
    unset_user_specified ⟨[(n, vO)], [(n, vO)]⟩ n = Except.ok ⟨[(n, vO)], []⟩ ∧
    getItem (reload ⟨[(n, vO)], []⟩) b n = Except.ok (vD, ⟨[(n, vD)], []⟩) := by
  refine ⟨?_, ?_, ?_, ?_, ?_, ?_, ?_, ?_⟩
  · simp [set_user_specified, hn, ainsert]
  · simp [setItem, hn, ainsert]
  · simp [getItem, hn, getRaw, alookup]
  · simp [delItem, hn, alookup, aerase]
  · simp [getItem, hn, getRaw, alookup, hb, ht, ainsert]
  · simp [getItem, hn, reload, getRaw, alookup]
  · simp [unset_user_specified, hn, alookup, aerase]
  · simp [getItem, hn, reload, getRaw, alookup, hb, ht, ainsert]

/-- Concrete instantiation of the amended C1 theorem at `host` with distinct
string values for the three layers. -/
theorem precedence_without_reload_witness :
    set_user_specified ⟨[], []⟩ "host" (Value.str "o") =
      Except.ok ⟨[], [("host", Value.str "o")]⟩ ∧
    setItem ⟨[], [("host", Value.str "o")]⟩ "host" (Value.str "e") =
      Except.ok ⟨[("host", Value.str "e")], [("host", Value.str "o")]⟩ ∧
    getItem ⟨[("host", Value.str "e")], [("host", Value.str "o")]⟩
        [("default_host", Value.str "d")] "host" =
      Except.ok (Value.str "e",
        ⟨[("host", Value.str "e")], [("host", Value.str "o")]⟩) ∧
    delItem ⟨[("host", Value.str "e")], [("host", Value.str "o")]⟩ "host" =
      Except.ok ⟨[], [("host", Value.str "o")]⟩ ∧
    getItem ⟨[], [("host", Value.str "o")]⟩
        [("default_host", Value.str "d")] "host" =
      Except.ok (Value.str "d",
        ⟨[("host", Value.str "d")], [("host", Value.str "o")]⟩) ∧
    getItem (reload ⟨[("host", Value.str "d")], [("host", Value.str "o")]⟩)
        [("default_host", Value.str "d")] "host" =
      Except.ok (Value.str "o",
        ⟨[("host", Value.str "o")], [("host", Value.str "o")]⟩) ∧
    unset_user_specified ⟨[("host", Value.str "o")], [("host", Value.str "o")]⟩
        "host" = Except.ok ⟨[("host", Value.str "o")], []⟩ ∧
    getItem (reload ⟨[("host", Value.str "o")], []⟩)
        [("default_host", Value.str "d")] "host" =
      Except.ok (Value.str "d", ⟨[("host", Value.str "d")], []⟩) :=
  precedence_without_reload [("default_host", Value.str "d")] "host"
    (Value.str "d") (Value.str "o") (Value.str "e") rfl rfl rfl

/-- Truthiness of the resolved settings value for `name` (`false` when the
name does not resolve at all). -/
def truthyResolve (s : SettingsState) (b : Dict) (name : String) : Bool :=
  match resolve s b name with
  | Option.some v => truthy v
  | Option.none => false

/-- `PsqlCommand.__is_password_required`: the short-circuit conjunction
`'prompt_for_password' in settings and settings['prompt_for_password'] and
'passfile' not in settings and 'service' not in settings and not
isfile(expanduser('~/.pgpass'))`, with the `__get` backfill mutation threaded;
`pgpassExists` is the `isfile` oracle for the local default password file. -/
def is_password_required (s : SettingsState) (b : Dict) (pgpassExists : Bool) :
    Bool × SettingsState :=
  match getItemT s b "prompt_for_password" with
  | Option.none => (false, s)
  | Option.some (v, s1) =>
    if truthy v then
      (!containsRaw s1 b "passfile" && !containsRaw s1 b "service" && !pgpassExists, s1)
    else (false, s1)

/-- The attribute lookup `self.set_status` as performed at psql.py:230, 247,
258 and 312: neither `PsqlCommand` (with its bases up to `TextCommand`) nor
the supervisor `Thread` subclass defines a `set_status` attribute — the
module-level helper at psql.py:34 is not reachable through `self` — so the
lookup raises `AttributeError` before the call argument is even evaluated. -/
def set_status_lookup : Except PErr Unit :=
  Except.error (PErr.attributeError "set_status")

/-- The assignment `self.settings = kwargs` (psql.py:221): `PsqlCommand`
inherits the `settings` property of `PsqlBaseTextCommand`, but the setter
decoration at psql.py:55-57 (`@settings.setter` over a method named
`function`) bound the setter-equipped property to the class attribute
`function` and left `settings` with a getter only, so the assignment raises
`AttributeError` on every invocation of `run`. -/
def settings_assignment : Except PErr Unit :=
  Except.error (PErr.attributeError "property settings has no setter")

/-- `PsqlCommand.run` up to the suspension decision, as executed: the
`self.settings = kwargs` assignment raises first; the password gating below
it (psql.py:226-233) is dead code, and its suspend branch evaluates
`self.set_status` (psql.py:230) — raising `AttributeError` — before
`show_input_panel`, so even there the input panel could not be shown.  The
Boolean records whether the dispatcher suspended on the input panel. -/
def runDispatch (s : SettingsState) (b : Dict) (pgpassExists : Bool) :
    Except PErr (Bool × SettingsState) :=
  match settings_assignment with
  | Except.error e => Except.error e
  | Except.ok _ =>
    match getItemT s b "password" with
    | Option.some (_, s1) => Except.ok (false, s1)
    | Option.none =>
      let req := is_password_required s b pgpassExists
      if req.1 then
        match set_status_lookup with
        | Except.error e => Except.error e
        | Except.ok _ => Except.ok (true, req.2)
      else Except.ok (false, req.2)

/-- Claim C3 describes the intended gating (psql.py:241-242 implements that
exact conjunction), but the code never reaches it: every invocation of `run`
raises `AttributeError` at `self.settings = kwargs` (the `settings` property
has no setter, its setter having been bound to the name `function`), and even
the dead suspend branch would raise `AttributeError` at the `self.set_status`
lookup before showing the input panel — the dispatcher never suspends.  At
the claim's own example input the gating condition `__is_password_required`
is true, yet no suspension happens. -/
theorem dispatcher_never_suspends (s : SettingsState) (b : Dict) (pg : Bool) :
    runDispatch s b pg =
      Except.error (PErr.attributeError "property settings has no setter") ∧
    (is_password_required ⟨[("prompt_for_password", Value.bool true)], []⟩
      [] false).1 = true :=
  ⟨rfl, rfl⟩

/-- A Sublime selection region, a pair of character offsets. -/
structure Region where
  a : Nat
  b : Nat

/-- `Region.empty()`: a zero-width region. -/
def Region.isEmpty (r : Region) : Bool :=
  r.a == r.b

/-- `view.substr(region)`: the document text between the region bounds. -/
def substr (doc : String) (r : Region) : String :=
  String.mk ((doc.toList.drop (min r.a r.b)).take (max r.a r.b - min r.a r.b))

/-- One schedulable unit of an invocation, the constructor arguments of
`__PostgresQueryExecute(self, query=..., file=...)`. -/
inductive WorkUnit where
  | file (path : String)
  | query (text : String)

/-- Python iteration over the `files` settings value: a list yields its
elements, a string yields its characters as one-character strings, any other
value raises `TypeError`. -/
def iterValue : Value → Except PErr (List Value)
  | Value.list l => Except.ok l
  | Value.str s => Except.ok (s.toList.map (fun c => Value.str (String.mk [c])))
  | _ => Except.error (PErr.typeError "object is not iterable")

/-- The file loop of `__run_with_password`: `for fileobj in
settings['files']: if isfile(fileobj): spawn one unit`.  `isfile` accepts only
path-like arguments (`TypeError` otherwise); nonexistent paths are silently
skipped. -/
def fileUnitsList (existsFile : String → Bool) : List Value → Except PErr (List WorkUnit)
  | [] => Except.ok []
  | Value.str p :: rest =>
    (fileUnitsList existsFile rest).map
      (fun us => if existsFile p then WorkUnit.file p :: us else us)
  | _ :: _ => Except.error (PErr.typeError "isfile expects a path-like object")

/-- The work-unit partitioning expression of psql.py:262-285, taken in
isolation: when `'files' in settings`, iterate `settings['files']` (one unit
per path existing on disk) and never look at the selections; otherwise one
unit per non-empty selection in document order; otherwise a single unit
covering `view.substr(Region(0, view.size()))`.  In the program this code is
dead: `__run_with_password` raises at the `self.set_status` call on
psql.py:258 before reaching it (see `runWithPassword`). -/
def workUnitsCode (s : SettingsState) (b : Dict) (existsFile : String → Bool)
    (sels : List Region) (doc : String) :
    Except PErr (List WorkUnit × SettingsState) :=
  match getItemT s b "files" with
  | Option.some (v, s1) =>
    match iterValue v with
    | Except.error e => Except.error e
    | Except.ok elems =>
      match fileUnitsList existsFile elems with
      | Except.error e => Except.error e
      | Except.ok us => Except.ok (us, s1)
  | Option.none =>
    let nonEmpty := sels.filter (fun r => !r.isEmpty)
    if nonEmpty.isEmpty then
      Except.ok ([WorkUnit.query (substr doc ⟨0, doc.length⟩)], s)
    else
      Except.ok (nonEmpty.map (fun r => WorkUnit.query (substr doc r)), s)

theorem substr_full (doc : String) : substr doc ⟨0, doc.length⟩ = doc := by
  have h1 : min 0 doc.length = 0 := Nat.min_eq_left (Nat.zero_le _)
  have h2 : max 0 doc.length = doc.length := Nat.max_eq_right (Nat.zero_le _)
  show String.mk ((doc.toList.drop (min 0 doc.length)).take
    (max 0 doc.length - min 0 doc.length)) = doc
  rw [h1, h2, Nat.sub_zero, List.drop_zero]
  have h3 : doc.toList.take doc.length = doc.toList := by
    have hlen : doc.length = doc.toList.length := rfl
    rw [hlen, List.take_length]
  rw [h3]
  cases doc
  rfl

theorem fileUnitsList_strings (existsFile : String → Bool) (paths : List String) :
    fileUnitsList existsFile (paths.map Value.str) =
      Except.ok ((paths.filter existsFile).map WorkUnit.file) := by
  induction paths with
  | nil => rfl
  | cons p rest ih =>
    rw [List.map_cons]
    unfold fileUnitsList
    rw [ih]
    by_cases he : existsFile p <;> simp [List.filter_cons, he, Except.map]

/-- Shape of the dead partitioning expression: with no resolvable `files`
entry, zero non-empty selections give exactly one unit covering the whole
document and k non-empty selections give exactly the k selection units in
document order; a carried `files` list takes precedence — selections are
ignored and exactly one unit arises per listed path existing on disk,
nonexistent paths silently skipped. -/
theorem work_unit_partitioning (s : SettingsState) (b : Dict)
    (existsFile : String → Bool) (sels : List Region) (doc : String) :
    (getItemT s b "files" = Option.none →
      (sels.filter (fun r => !r.isEmpty) = [] →
        workUnitsCode s b existsFile sels doc =
          Except.ok ([WorkUnit.query doc], s)) ∧
      (sels.filter (fun r => !r.isEmpty) ≠ [] →
        workUnitsCode s b existsFile sels doc =
          Except.ok ((sels.filter (fun r => !r.isEmpty)).map
            (fun r => WorkUnit.query (substr doc r)), s))) ∧
    (∀ (paths : List String) (s1 : SettingsState), getItemT s b "files" =
        Option.some (Value.list (paths.map Value.str), s1) →
      workUnitsCode s b existsFile sels doc =
        Except.ok ((paths.filter existsFile).map WorkUnit.file, s1)) := by
  constructor
  · intro hf
    constructor
    · intro hsel
      unfold workUnitsCode
      rw [hf]
      simp only [hsel, List.isEmpty_nil, if_true, substr_full]
    · intro hsel
      unfold workUnitsCode
      rw [hf]
      cases hE : (sels.filter (fun r => !r.isEmpty)).isEmpty with
      | true => exact absurd (List.isEmpty_iff.mp hE) hsel
      | false => simp [hE]
  · intro paths s1 hf
    unfold workUnitsCode
    rw [hf]
    simp [iterValue, fileUnitsList_strings]

/-- Concrete instances of the dead partitioning expression: an empty
invocation would yield the whole-document unit, and a `files` list with one
existing and one missing path would yield exactly the existing file unit. -/
theorem work_unit_partitioning_witness :
    workUnitsCode ⟨[], []⟩ [] (fun _ => false) [] "SELECT 1" =
      Except.ok ([WorkUnit.query "SELECT 1"], ⟨[], []⟩) ∧
    workUnitsCode
        ⟨[("files", Value.list [Value.str "a.sql", Value.str "missing"])], []⟩
        [] (fun p => p == "a.sql") [] "doc" =
      Except.ok ([WorkUnit.file "a.sql"],
        ⟨[("files", Value.list [Value.str "a.sql", Value.str "missing"])], []⟩) :=
  ⟨((work_unit_partitioning ⟨[], []⟩ [] (fun _ => false) [] "SELECT 1").1 rfl).1 rfl,
   (work_unit_partitioning
      ⟨[("files", Value.list [Value.str "a.sql", Value.str "missing"])], []⟩
      [] (fun p => p == "a.sql") [] "doc").2 ["a.sql", "missing"] _ rfl⟩

/-- The `elif 'password' not in self.settings: self.settings['password'] =
password` branch of `__run_with_password` (psql.py:249-250); the name
`password` is in the vocabulary, so `__setitem__` stores it into the working
layer. -/
def elifPasswordStore (password : Value) (s : SettingsState) (b : Dict) :
    SettingsState :=
  if containsRaw s b "password" then s
  else { s with defaults := ainsert s.defaults "password" password }

/-- psql.py:252-258 of `__run_with_password`: read `output_to_newfile`
(backfilling as usual), set up the output panel through the external display
collaborator, then call `self.set_status('PostgreSQL query executing...')` —
an attribute lookup that always raises `AttributeError`, before
`thread_infos = []` is ever reached; the partitioning (`workUnitsCode`) is
dead code behind it. -/
def afterPasswordStep (b : Dict) (existsFile : String → Bool)
    (sels : List Region) (doc : String) (s : SettingsState) :
    Except PErr (List WorkUnit × SettingsState) :=
  let s2 := match getItemT s b "output_to_newfile" with
    | Option.some (_, t) => t
    | Option.none => s
  match set_status_lookup with
  | Except.error e => Except.error e
  | Except.ok _ => workUnitsCode s2 b existsFile sels doc

/-- `PsqlCommand.__run_with_password(password)` as executed (psql.py:244-291):
the empty-password handling (with `warnProceed` the answer of the external
confirmation dialog; its cancel branch also calls `self.set_status`), the
`elif` password store, and then `afterPasswordStep`, whose `self.set_status`
call raises before any work unit is created. -/
def runWithPassword (password : Value) (warnProceed : Bool) (s : SettingsState)
    (b : Dict) (pgpassExists : Bool) (existsFile : String → Bool)
    (sels : List Region) (doc : String) :
    Except PErr (List WorkUnit × SettingsState) :=
  if truthy password then
    afterPasswordStep b existsFile sels doc (elifPasswordStore password s b)
  else
    let req := is_password_required s b pgpassExists
    if req.1 then
      match getItemT req.2 b "warn_on_empty_password" with
      | Option.some (w, s2) =>
        if truthy w ∧ ¬ warnProceed then
          match set_status_lookup with
          | Except.error e => Except.error e
          | Except.ok _ => Except.ok ([], s2)
        else afterPasswordStep b existsFile sels doc s2
      | Option.none => afterPasswordStep b existsFile sels doc req.2
    else afterPasswordStep b existsFile sels doc (elifPasswordStore password req.2 b)

theorem afterPasswordStep_raises (b : Dict) (existsFile : String → Bool)
    (sels : List Region) (doc : String) (s : SettingsState) :
    afterPasswordStep b existsFile sels doc s =
      Except.error (PErr.attributeError "set_status") := rfl

/-- Claim C5 (amended): no invocation ever creates a WorkUnit — every call of
`__run_with_password` raises `AttributeError` at a `self.set_status` lookup
(psql.py:258, or psql.py:247 when the declined empty-password dialog is
taken) before `thread_infos` is built, and `run` itself already raises at
psql.py:221; the partitioning of psql.py:262-285 (files-precedence over
selections, one unit per existing path, else one per non-empty selection,
else one whole-document unit — see `work_unit_partitioning`) is dead code. -/
theorem no_work_units_created (password : Value) (warnProceed : Bool)
    (s : SettingsState) (b : Dict) (pg : Bool) (existsFile : String → Bool)
    (sels : List Region) (doc : String) :
    runWithPassword password warnProceed s b pg existsFile sels doc =
      Except.error (PErr.attributeError "set_status") := by
  unfold runWithPassword
  by_cases hp : truthy password
  · simp only [hp, if_true]
    exact afterPasswordStep_raises _ _ _ _ _
  · simp only [hp, Bool.false_eq_true, if_false]
    by_cases hr : (is_password_required s b pg).1
    · simp only [hr, if_true]
      cases hw : getItemT (is_password_required s b pg).2 b "warn_on_empty_password" with
      | some p =>
        obtain ⟨w, s2⟩ := p
        dsimp only
        by_cases hwt : truthy w ∧ ¬ warnProceed
        · rw [if_pos hwt]
          rfl
        · rw [if_neg hwt]
          exact afterPasswordStep_raises _ _ _ _ _
      | none => simp [afterPasswordStep_raises]
    · simp [hr, afterPasswordStep_raises]

/-- Counterexample to claim C5 as stated: for the empty invocation the claim
predicts exactly one WorkUnit covering the whole document — and the dead
partitioning expression would indeed produce it — but `__run_with_password`
raises `AttributeError` at the `self.set_status` call before any WorkUnit is
created. -/
theorem no_units_for_whole_document_invocation :
    runWithPassword (Value.str "pw") true ⟨[], []⟩ [] false (fun _ => false)
        [] "SELECT 1" =
      Except.error (PErr.attributeError "set_status") ∧
    workUnitsCode ⟨[], []⟩ [] (fun _ => false) [] "SELECT 1" =
      Except.ok ([WorkUnit.query "SELECT 1"], ⟨[], []⟩) :=
  ⟨rfl, rfl⟩

/-- Character scan for `os.path.split(path)[1]`: the accumulator holds the
current component reversed and is restarted at every separator. -/
def basenameChars : List Char → List Char → List Char
  | cur, [] => cur.reverse
  | cur, c :: rest =>
    if c = '/' then basenameChars [] rest else basenameChars (c :: cur) rest

/-- `os.path.split(path)[1]`: the final path component (empty for a trailing
separator). -/
def basename (p : String) : String :=
  String.mk (basenameChars [] p.toList)

/-- One entry of the supervisor's `thread_infos` list: the file path when the
unit is file-based (the dictionary key `'file'`), the ordinal `thread_num`
stored for query units, the spawn timestamp `start_time`, and the liveness of
the worker thread at this tick. -/
structure ThreadInfo where
  file : Option String
  threadNum : Nat
  startTime : Nat
  alive : Bool
deriving DecidableEq

/-- Outcome of one `__PostgresQueryHandleExecution.run` tick: the status
messages emitted, the handle set passed to the re-armed tick (empty when the
tick died or nothing remained), and the exception that killed the tick, if
any.  Time is modelled in integral seconds so that `(now - start) * 1000` is
an exact number of milliseconds. -/
structure TickResult where
  messages : List String
  rearmed : List ThreadInfo
  err : Option PErr
deriving DecidableEq

/-- The label construction of the supervisor:
`('query ' + thread_num + '/' + thread_total) if thread_num != 1 and
thread_total != 1 else 'query '` for query units — concatenating the integer
`thread_num` onto a string raises `TypeError` — and `'file ' + basename` for
file units. -/
def queryId (i : ThreadInfo) (total : Nat) : Except PErr String :=
  match i.file with
  | Option.some path => Except.ok ("file " ++ basename path)
  | Option.none =>
    if i.threadNum ≠ 1 ∧ total ≠ 1 then
      Except.error (PErr.typeError "can only concatenate str to str")
    else Except.ok "query "

/-- The status text handed to the status-message collaborator:
`'PostgreSQL ' + query_id + ' completed in ' + str(completion_time) + ' ms.'`
with `completion_time = (time() - start_time) * 1000`. -/
def statusMsg (qid : String) (completionTime : Nat) : String :=
  "PostgreSQL " ++ qid ++ " completed in " ++ toString completionTime ++ " ms."

/-- One tick of `__PostgresQueryHandleExecution.run` as executed: still-alive
handles are collected for the re-arm; for the first finished handle the tick
computes the elapsed time and the label (`queryId`, psql.py:306-311 — raising
`TypeError` for a later ordinal of a multi-unit query invocation) and then
evaluates `self.set_status` (psql.py:312), an attribute the `Thread` subclass
does not have, so the lookup raises `AttributeError` before the message
argument (`statusMsg`) is even built.  Either exception kills the tick:
nothing is emitted, the collected handles are dropped, and the re-arm at the
end of `run` is never reached. -/
def supTick (now total : Nat) : List ThreadInfo → TickResult
  | [] => ⟨[], [], Option.none⟩
  | i :: rest =>
    if i.alive then
      let r := supTick now total rest
      ⟨r.messages, if r.err.isSome then [] else i :: r.rearmed, r.err⟩
    else
      match queryId i total with
      | Except.error e => ⟨[], [], Option.some e⟩
      | Except.ok qid =>
        match set_status_lookup with
        | Except.error e => ⟨[], [], Option.some e⟩
        | Except.ok _ =>
          let r := supTick now total rest
          ⟨statusMsg qid ((now - i.startTime) * 1000) :: r.messages,
            if r.err.isSome then [] else r.rearmed, r.err⟩

theorem supTick_cons (now total : Nat) (i : ThreadInfo) (rest : List ThreadInfo) :
    supTick now total (i :: rest) =
      if i.alive then
        ⟨(supTick now total rest).messages,
          if (supTick now total rest).err.isSome then []
          else i :: (supTick now total rest).rearmed,
          (supTick now total rest).err⟩
      else
        match queryId i total with
        | Except.error e => ⟨[], [], Option.some e⟩
        | Except.ok _ =>
          ⟨[], [], Option.some (PErr.attributeError "set_status")⟩ := rfl

/-- Counterexample to claim C2 as stated: for the finished file unit `a.sql`
(started at 2 s, tick at 7 s) the claim predicts the emitted notification
`"file a.sql completed in 5000 ms."`, but the tick emits no message at all —
it dies with `AttributeError` at the `self.set_status` lookup. -/
theorem completion_notification_never_emitted :
    supTick 7 1 [⟨Option.some "a.sql", 1, 2, false⟩] =
      ⟨[], [], Option.some (PErr.attributeError "set_status")⟩ ∧
    (supTick 7 1 [⟨Option.some "a.sql", 1, 2, false⟩]).messages ≠
      ["file a.sql completed in 5000 ms."] :=
  ⟨by decide, by decide⟩

/-- Claim C2 (amended): the supervisor never emits a completion notification.
Every tick's message list is empty; a tick whose handles are all still alive
re-arms with the full set; and the first finished handle kills the tick —
with `TypeError` from the label construction (`'query ' + thread_num`) for a
query unit of ordinal other than 1 in a multi-unit invocation, and otherwise
with `AttributeError` from the `self.set_status` lookup — emitting nothing
and preventing any re-arm. -/
theorem supervisor_never_emits (now total : Nat) :
    (∀ infos : List ThreadInfo, (supTick now total infos).messages = []) ∧
    (∀ infos : List ThreadInfo, (∀ i ∈ infos, i.alive = true) →
      supTick now total infos = ⟨[], infos, Option.none⟩) ∧
    (∀ (i : ThreadInfo) (rest : List ThreadInfo), i.alive = false →
      ((i.file ≠ Option.none ∨ i.threadNum = 1 ∨ total = 1) →
        supTick now total (i :: rest) =
          ⟨[], [], Option.some (PErr.attributeError "set_status")⟩) ∧
      (i.file = Option.none → i.threadNum ≠ 1 → total ≠ 1 →
        supTick now total (i :: rest) =
          ⟨[], [], Option.some (PErr.typeError "can only concatenate str to str")⟩)) := by
  refine ⟨?_, ?_, ?_⟩
  · intro infos
    induction infos with
    | nil => rfl
    | cons i rest ih =>
      rw [supTick_cons]
      cases ha : i.alive
      · simp only [Bool.false_eq_true, if_false]
        cases hq : queryId i total with
        | error e => rfl
        | ok qid => rfl
      · simp only [if_true, ih]
  · intro infos hall
    induction infos with
    | nil => rfl
    | cons i rest ih =>
      have hi : i.alive = true := hall i (List.mem_cons_self _ _)
      have hrest := ih (fun j hj => hall j (List.mem_cons_of_mem _ hj))
      rw [supTick_cons, hrest]
      simp [hi]
  · intro i rest hdone
    constructor
    · intro hlab
      have hq : ∃ qid, queryId i total = Except.ok qid := by
        unfold queryId
        cases hfile : i.file with
        | some path => exact ⟨_, rfl⟩
        | none =>
          have h1 : i.threadNum = 1 ∨ total = 1 := by
            rcases hlab with hf | h | h
            · exact absurd hfile hf
            · exact Or.inl h
            · exact Or.inr h
          have hcond : ¬ (i.threadNum ≠ 1 ∧ total ≠ 1) := by
            rcases h1 with h | h <;> simp [h]
          simp [hcond]
      obtain ⟨qid, hq⟩ := hq
      rw [supTick_cons]
      simp [hdone, hq]
    · intro hfile hn ht
      have hq : queryId i total =
          Except.error (PErr.typeError "can only concatenate str to str") := by
        unfold queryId
        rw [hfile]
        simp [hn, ht]
      rw [supTick_cons]
      simp [hdone, hq]

/-- Concrete instantiation of the amended C2 theorem: no message for a mixed
tick, re-arm of an all-alive tick, `AttributeError` for a finished file unit,
and `TypeError` for the second unit of a two-unit query invocation. -/
theorem supervisor_never_emits_witness :
    (supTick 7 2 [⟨Option.some "a.sql", 1, 2, false⟩,
      ⟨Option.none, 2, 5, true⟩]).messages = [] ∧
    supTick 7 2 [⟨Option.none, 1, 0, true⟩] =
      ⟨[], [⟨Option.none, 1, 0, true⟩], Option.none⟩ ∧
    supTick 7 1 [⟨Option.some "a.sql", 1, 2, false⟩] =
      ⟨[], [], Option.some (PErr.attributeError "set_status")⟩ ∧
    supTick 7 2 [⟨Option.none, 2, 2, false⟩] =
      ⟨[], [], Option.some (PErr.typeError "can only concatenate str to str")⟩ := by
  refine ⟨(supervisor_never_emits 7 2).1 _, ?_, ?_, ?_⟩
  · exact (supervisor_never_emits 7 2).2.1 _ (by decide)
  · exact ((supervisor_never_emits 7 1).2.2 ⟨Option.some "a.sql", 1, 2, false⟩ []
      rfl).1 (Or.inl (by decide))
  · exact ((supervisor_never_emits 7 2).2.2 ⟨Option.none, 2, 2, false⟩ []
      rfl).2 rfl (by decide) (by decide)

/-- `__PostgresQueryExecute.__get_parameter(name, default)`: when the name is
absent from the resolved settings and the default is truthy, store the default
into the working layer first; then return `settings[name]` when the default is
truthy or the name resolves, and Python `False` otherwise. -/
def get_parameter (s : SettingsState) (b : Dict) (name : String) (dflt : Value) :
    Value × SettingsState :=
  match getItemT s b name with
  | Option.some (v, s1) => (v, s1)
  | Option.none =>
    if truthy dflt then
      (dflt, { s with defaults := ainsert s.defaults name dflt })
    else (Value.bool false, s)

/-- The body of the variable loop of `__PostgresQueryExecute.run`
(psql.py:363-365) together with `__try_add_parameter_name_to_environment`, as
written: for every variable of the iterated table with `name in settings and
settings[name]` truthy, re-read it through `__get_parameter(name)` and set
`env[argname] = value` — including when the external mapping `argname` is the
empty string.  In the program this loop is dead code: its header reads
`settings.postgres_variables`, which always raises (see
`postgres_variables_property` and `envDerivationActual`). -/
def addVars (b : Dict) : List (String × String) → Dict → SettingsState →
    Dict × SettingsState
  | [], env, s => (env, s)
  | (n, ext) :: rest, env, s =>
    match getItemT s b n with
    | Option.none => addVars b rest env s
    | Option.some (v, s1) =>
      if truthy v then
        if truthy (get_parameter s1 b n (Value.bool false)).1 then
          addVars b rest (ainsert env ext (get_parameter s1 b n (Value.bool false)).1)
            (get_parameter s1 b n (Value.bool false)).2
        else addVars b rest env (get_parameter s1 b n (Value.bool false)).2
      else addVars b rest env s1

/-- The environment derivation of `__PostgresQueryExecute.run` as written
(psql.py:361-369): run the variable loop over a copy of the process
environment, then default `PGCLIENTENCODING` to the invocation encoding when
the resulting environment holds no such key.  As executed, both table reads
raise before any of this runs (see `envDerivationActual`); the definition is
kept as the branch structure of the `try` body that the C6 boundary theorem
covers. -/
def deriveEnv (s : SettingsState) (b : Dict) (baseEnv : Dict) (encoding : String) :
    Dict × SettingsState :=
  let r := addVars b postgres_variables baseEnv s
  (if (alookup r.1 "PGCLIENTENCODING").isSome then r.1
   else ainsert r.1 "PGCLIENTENCODING" (Value.str encoding), r.2)

/-- The environment pass exactly as claim C7 words it: only variables whose
external mapping is non-empty and whose resolved settings value is truthy are
exported, and the client-encoding variable is defaulted whenever that pass did
not set it. -/
def claimPass (s : SettingsState) (b : Dict) : List (String × String) → Dict → Dict
  | [], env => env
  | (n, ext) :: rest, env =>
    match resolve s b n with
    | Option.some v =>
      if truthy v ∧ ext ≠ "" then claimPass s b rest (ainsert env ext v)
      else claimPass s b rest env
    | Option.none => claimPass s b rest env

/-- The whole child environment as claim C7 words it. -/
def envClaimed (s : SettingsState) (b : Dict) (baseEnv : Dict) (encoding : String) :
    Dict :=
  let env := claimPass s b postgres_variables baseEnv
  if truthyResolve s b "client_encoding" then env
  else ainsert env "PGCLIENTENCODING" (Value.str encoding)

/-- OS and process oracles for one worker execution; every operation can fail
with a Python exception rendered as text. -/
structure ProcOps where
  openInput : String → Except String Unit
  spawn : List Value → Dict → Except String Unit
  encodeText : String → String → Except String (List Nat)
  communicate : Option (List Nat) → Except String (List Nat)
  decodeBytes : List Nat → String → Except String String
  poll : Int

/-- `traceback.format_exc()` for the caught exception. -/
def format_exc (e : String) : String :=
  "Traceback (most recent call last):\n" ++ e

/-- The body of the `try:` block of `__PostgresQueryExecute.run`: build the
command `[psql_path, '--no-password']`, derive the environment, then for a
file unit open the file and stream it as stdin, and for a query unit encode
the query text with the invocation encoding and feed it to `communicate`;
finally decode the combined output and poll the exit status. -/
def tryBody (s : SettingsState) (b : Dict) (baseEnv : Dict) (encoding : String)
    (u : WorkUnit) (ops : ProcOps) : Except String (Int × String) :=
  let p := get_parameter s b "psql_path" (Value.str "/usr/bin/psql")
  let cmd := [p.1, Value.str "--no-password"]
  let env := (deriveEnv p.2 b baseEnv encoding).1
  match u with
  | WorkUnit.file path =>
    match ops.openInput path with
    | Except.error e => Except.error e
    | Except.ok _ =>
      match ops.spawn cmd env with
      | Except.error e => Except.error e
      | Except.ok _ =>
        match ops.communicate Option.none with
        | Except.error e => Except.error e
        | Except.ok out =>
          match ops.decodeBytes out encoding with
          | Except.error e => Except.error e
          | Except.ok text => Except.ok (ops.poll, text)
  | WorkUnit.query q =>
    match ops.spawn cmd env with
    | Except.error e => Except.error e
    | Except.ok _ =>
      match ops.encodeText q encoding with
      | Except.error e => Except.error e
      | Except.ok bs =>
        match ops.communicate (Option.some bs) with
        | Except.error e => Except.error e
        | Except.ok out =>
          match ops.decodeBytes out encoding with
          | Except.error e => Except.error e
          | Except.ok text => Except.ok (ops.poll, text)

/-- `__PostgresQueryExecute.run`: the whole body sits inside
`try/except BaseException`; on any failure the output text becomes
`format_exc()` and the result code is forced to 1; the resulting pair is what
the `set_timeout` hand-off delivers to `__output` on the foreground thread. -/
def workerRun (s : SettingsState) (b : Dict) (baseEnv : Dict) (encoding : String)
    (u : WorkUnit) (ops : ProcOps) : Int × String :=
  match tryBody s b baseEnv encoding u ops with
  | Except.ok r => r
  | Except.error e => (1, format_exc e)

/-- Claim C6: the worker's `run` never lets an exception propagate — every
failure during spawn, I/O or encoding is converted into a delivered result
whose output text is the full diagnostic traceback and whose result code is
the forced nonzero failure value 1, while every successful execution is
delivered unchanged through the same asynchronous output path. -/
theorem worker_never_raises (s : SettingsState) (b : Dict) (baseEnv : Dict)
    (encoding : String) (u : WorkUnit) (ops : ProcOps) :
    (∀ e, tryBody s b baseEnv encoding u ops = Except.error e →
      workerRun s b baseEnv encoding u ops = (1, format_exc e) ∧
      (workerRun s b baseEnv encoding u ops).1 ≠ 0) ∧
    (∀ r, tryBody s b baseEnv encoding u ops = Except.ok r →
      workerRun s b baseEnv encoding u ops = r) := by
  constructor
  · intro e he
    unfold workerRun
    rw [he]
    refine ⟨rfl, ?_⟩
    show (1 : Int) ≠ 0
    decide
  · intro r hr
    unfold workerRun
    rw [hr]

/-- A process oracle whose spawn fails, as with a nonexistent client
binary. -/
def failingOps : ProcOps :=
  ⟨fun _ => Except.ok (), fun _ _ => Except.error "FileNotFoundError: psql",
   fun _ _ => Except.ok [], fun _ => Except.ok [], fun _ _ => Except.ok "", 0⟩

/-- Concrete instantiation of the C6 theorem: a failed spawn is delivered as
`(1, traceback)` instead of escaping. -/
theorem worker_never_raises_witness :
    tryBody ⟨[], []⟩ [] [] "UTF-8" (WorkUnit.query "SELECT 1") failingOps =
      Except.error "FileNotFoundError: psql" ∧
    workerRun ⟨[], []⟩ [] [] "UTF-8" (WorkUnit.query "SELECT 1") failingOps =
      (1, format_exc "FileNotFoundError: psql") ∧
    (workerRun ⟨[], []⟩ [] [] "UTF-8" (WorkUnit.query "SELECT 1") failingOps).1 ≠ 0 := by
  refine ⟨rfl, ?_, ?_⟩
  · exact ((worker_never_raises ⟨[], []⟩ [] [] "UTF-8" (WorkUnit.query "SELECT 1")
      failingOps).1 "FileNotFoundError: psql" rfl).1
  · exact ((worker_never_raises ⟨[], []⟩ [] [] "UTF-8" (WorkUnit.query "SELECT 1")
      failingOps).1 "FileNotFoundError: psql" rfl).2

/-- Instance access to `settings.postgres_variables` (psql.py:99-102): the
`@property` wraps the `@staticmethod` object itself as its getter, and a
staticmethod object is not callable on any Python able to import this module
(`from collections import MutableMapping` at psql.py:25 requires a version
below 3.10), so every access raises `TypeError` before the variable table is
ever produced. -/
def postgres_variables_property : Except PErr (List (String × String)) :=
  Except.error (PErr.typeError "staticmethod object is not callable")

/-- The environment phase of `__PostgresQueryExecute.run` as executed
(psql.py:361-369): `environ.copy()` succeeds, then the loop header reads
`self.parent.settings.postgres_variables`, which raises; the loop itself, the
second table read for `client_encoding`, and the `PGCLIENTENCODING`
defaulting are dead code behind that access. -/
def envDerivationActual (s : SettingsState) (b : Dict) (baseEnv : Dict)
    (encoding : String) : Except PErr (Dict × SettingsState) :=
  match postgres_variables_property with
  | Except.error e => Except.error e
  | Except.ok vars =>
    let r := addVars b vars baseEnv s
    match postgres_variables_property with
    | Except.error e => Except.error e
    | Except.ok vars2 =>
      match alookup vars2 "client_encoding" with
      | Option.none => Except.error (PErr.keyError "client_encoding")
      | Option.some ext =>
        Except.ok ((if (alookup r.1 ext).isSome then r.1
          else ainsert r.1 ext (Value.str encoding)), r.2)

/-- Traceback rendering of a modelled Python exception. -/
def pyExcText : PErr → String
  | PErr.valueError m => "ValueError: " ++ m
  | PErr.keyError n => "KeyError: " ++ n
  | PErr.typeError m => "TypeError: " ++ m
  | PErr.attributeError n => "AttributeError: " ++ n

/-- The `try:` body of `__PostgresQueryExecute.run` as executed: the command
construction succeeds (defaulting `psql_path`), then the environment phase
raises at the `postgres_variables` property access inside the `try`, before
any process interaction; the per-unit branches are dead code. -/
def tryBodyActual (s : SettingsState) (b : Dict) (baseEnv : Dict)
    (encoding : String) (u : WorkUnit) (ops : ProcOps) :
    Except String (Int × String) :=
  let p := get_parameter s b "psql_path" (Value.str "/usr/bin/psql")
  match envDerivationActual p.2 b baseEnv encoding with
  | Except.error e => Except.error (pyExcText e)
  | Except.ok (env, _) =>
    match u with
    | WorkUnit.file path =>
      match ops.openInput path with
      | Except.error e => Except.error e
      | Except.ok _ =>
        match ops.spawn [p.1, Value.str "--no-password"] env with
        | Except.error e => Except.error e
        | Except.ok _ =>
          match ops.communicate Option.none with
          | Except.error e => Except.error e
          | Except.ok out =>
            match ops.decodeBytes out encoding with
            | Except.error e => Except.error e
            | Except.ok text => Except.ok (ops.poll, text)
    | WorkUnit.query q =>
      match ops.spawn [p.1, Value.str "--no-password"] env with
      | Except.error e => Except.error e
      | Except.ok _ =>
        match ops.encodeText q encoding with
        | Except.error e => Except.error e
        | Except.ok bs =>
          match ops.communicate (Option.some bs) with
          | Except.error e => Except.error e
          | Except.ok out =>
            match ops.decodeBytes out encoding with
            | Except.error e => Except.error e
            | Except.ok text => Except.ok (ops.poll, text)

/-- `__PostgresQueryExecute.run` as executed: the `try` body above fails and
the boundary of claim C6 converts the failure into `(1, traceback)`. -/
def workerRunActual (s : SettingsState) (b : Dict) (baseEnv : Dict)
    (encoding : String) (u : WorkUnit) (ops : ProcOps) : Int × String :=
  match tryBodyActual s b baseEnv encoding u ops with
  | Except.ok r => r
  | Except.error e => (1, format_exc e)

/-- Claim C7 (amended): no child environment is ever derived — for every
settings state, backend, process environment, encoding, work unit and process
oracle, the worker run raises `TypeError` at the `settings.postgres_variables`
access before the variable loop, the failure is caught at the worker boundary
and delivered as `(1, traceback)`, and no process is spawned. -/
theorem no_child_environment (s : SettingsState) (b : Dict) (baseEnv : Dict)
    (encoding : String) (u : WorkUnit) (ops : ProcOps) :
    envDerivationActual s b baseEnv encoding =
      Except.error (PErr.typeError "staticmethod object is not callable") ∧
    tryBodyActual s b baseEnv encoding u ops =
      Except.error "TypeError: staticmethod object is not callable" ∧
    workerRunActual s b baseEnv encoding u ops =
      (1, format_exc "TypeError: staticmethod object is not callable") :=
  ⟨rfl, rfl, rfl⟩

/-- Counterexample to claim C7 as stated: at empty settings, an empty backend
and an empty process environment the claim describes a child environment —
here exactly the defaulted `PGCLIENTENCODING` entry — but the code derives no
environment at all: the run fails with the property `TypeError` before the
loop, and the worker delivers a traceback result instead. -/
theorem claimed_environment_never_built :
    envClaimed ⟨[], []⟩ [] [] "UTF-8" =
      [("PGCLIENTENCODING", Value.str "UTF-8")] ∧
    envDerivationActual ⟨[], []⟩ [] [] "UTF-8" =
      Except.error (PErr.typeError "staticmethod object is not callable") ∧
    workerRunActual ⟨[], []⟩ [] [] "UTF-8" (WorkUnit.query "SELECT 1") failingOps =
      (1, format_exc "TypeError: staticmethod object is not callable") :=
  ⟨rfl, rfl, rfl⟩

end PsqlModel
